import Mathlib

/-!
Verification of the paired-end policy logic (`pe.h`) and the reference
coordinate types (`ref_coord.h`) of this repository.

Conventions of the embedding:
* C++ `int` / `int64_t` (`TRefOff`) are modelled as `Int`;
  `uint64_t` (`TRefId`) and `uint32_t` lengths as `Nat`.
  No arithmetic in the modelled paths can overflow the machine widths for
  realistic coordinates, so no wrap-around modelling is required.
* the `throw 1` paths of `pePolicyCompat` / `pePolicyMateDir` (unrecognized
  policy) are modelled as `Except` errors (`PolicyErr.configurationError`);
* the assertion macros of `assert_helpers.h` (which is included by
  `ref_coord.h` but is not among the available sources) are modelled as
  `Except` failures, following the error model of the specification:
  a failing `assert_eq(id1, id2)` in the two-offset `Interval` constructor
  is `RCErr.invalidArgument`, any other failing assertion is
  `RCErr.assertFail`.
-/

set_option autoImplicit false
set_option linter.unnecessarySeqFocus false

namespace B2

instance exceptDecEq {ε α : Type} [DecidableEq ε] [DecidableEq α] :
    DecidableEq (Except ε α) := fun a b =>
  match a, b with
  | .error e, .error f =>
    if h : e = f then .isTrue (by rw [h])
    else .isFalse (fun hh => h (Except.error.inj hh))
  | .ok x, .ok y =>
    if h : x = y then .isTrue (by rw [h])
    else .isFalse (fun hh => h (Except.ok.inj hh))
  | .error _, .ok _ => .isFalse (fun hh => Except.noConfusion hh)
  | .ok _, .error _ => .isFalse (fun hh => Except.noConfusion hh)

/-! ## pe.h: policy enum and alignment-type enum -/

def PE_POLICY_FF : Int := 1
def PE_POLICY_RR : Int := 2
def PE_POLICY_FR : Int := 3
def PE_POLICY_RF : Int := 4

def PE_ALS_NORMAL : Int := 1
def PE_ALS_OVERLAP : Int := 2
def PE_ALS_CONTAIN : Int := 3
def PE_ALS_DOVETAIL : Int := 4
def PE_ALS_DISCORD : Int := 5

/-- Error raised by the `default:` branches of the policy switches
(`throw 1` after printing "Bad PE_POLICY" resp. "No such PE_POLICY"). -/
inductive PolicyErr where
  | configurationError
deriving DecidableEq

/-- `pePolicyCompat` (pe.h lines 83–104): true iff the orientations and
relative positions of mates 1 and 2 are compatible with the policy. -/
def pePolicyCompat (policy : Int) (oneLeft oneWat twoWat : Bool) :
    Except PolicyErr Bool :=
  if policy = PE_POLICY_FF then
    .ok (oneWat == twoWat && oneWat == oneLeft)
  else if policy = PE_POLICY_RR then
    .ok (oneWat == twoWat && oneWat != oneLeft)
  else if policy = PE_POLICY_FR then
    .ok (oneWat != twoWat && oneWat == oneLeft)
  else if policy = PE_POLICY_RF then
    .ok (oneWat != twoWat && oneWat != oneLeft)
  else
    .error .configurationError

/-- The two out-parameters `left` and `mfw` of `pePolicyMateDir`. -/
structure MateDir where
  left : Bool
  mfw : Bool
deriving DecidableEq

/-- `pePolicyMateDir` (pe.h lines 111–145): given that mate `is1` aligned
with orientation `fw`, where must the other mate be (`left`) and on which
strand (`mfw`). -/
def pePolicyMateDir (policy : Int) (is1 fw : Bool) : Except PolicyErr MateDir :=
  if policy = PE_POLICY_FF then
    .ok ⟨is1 != fw, fw⟩
  else if policy = PE_POLICY_RR then
    .ok ⟨is1 == fw, fw⟩
  else if policy = PE_POLICY_FR then
    .ok ⟨!fw, !fw⟩
  else if policy = PE_POLICY_RF then
    .ok ⟨fw, !fw⟩
  else
    .error .configurationError

/-- The configuration fields of class `PairedEndPolicy` (pe.h lines 150–292). -/
structure PairedEndPolicy where
  pol : Int
  maxfrag : Nat
  minfrag : Nat
  localAlign : Bool
  dovetailOk : Bool
  containOk : Bool
  olapOk : Bool
  expandToFit : Bool
deriving DecidableEq

/-- `PairedEndPolicy::reset` (pe.h lines 180–182): initialize with nonsense
values, `init(-1, 0xffffffff, 0xffffffff, false, false, false, false, false)`. -/
def PairedEndPolicy.reset : PairedEndPolicy :=
  ⟨-1, 0xffffffff, 0xffffffff, false, false, false, false, false⟩

/-! ## ref_coord.h: Coord and Interval -/

/-- Error raised by the assertion macros of `assert_helpers.h`.
Modelled from the spec: `assert_helpers.h` is not among the available
source files; the spec describes a failing `assert_eq(id1, id2)` in the
two-offset `Interval` constructor as a contract violation that "fails with
InvalidArgument", and other assertion failures as programmer-error
contract violations. -/
inductive RCErr where
  | invalidArgument
  | assertFail
deriving DecidableEq

/-- `std::numeric_limits<TRefId>::max()` with `TRefId = uint64_t`. -/
def TRefIdMax : Nat := 2 ^ 64 - 1

/-- `std::numeric_limits<TRefOff>::max()` with `TRefOff = int64_t`. -/
def TRefOffMax : Int := 2 ^ 63 - 1

/-- The fields of class `Coord` (ref_coord.h lines 20–123):
reference id `ref_`, 0-based offset `off_`, and `orient_` (an `int`:
1 = Watson, 0 = Crick, −1 after `invalidate()`). -/
structure Coord where
  ref : Nat
  off : Int
  orient : Int
deriving DecidableEq

/-- `Coord::init(rf, of, fw)` (ref_coord.h lines 28–32). -/
def Coord.init (rf : Nat) (of : Int) (fw : Bool) : Coord :=
  ⟨rf, of, if fw then 1 else 0⟩

/-- `Coord::invalidate()` (ref_coord.h lines 65–69): set both fields to
their sentinel maxima and `orient_` to −1.  (The default constructor
`Coord()` calls this.) -/
def Coord.invalidateC : Coord :=
  ⟨TRefIdMax, TRefOffMax, -1⟩

/-- `Coord::valid()` (ref_coord.h lines 75–83): true iff neither field
holds its sentinel; on the true branch the source asserts
`orient_ == 0 || orient_ == 1`. -/
def Coord.valid (c : Coord) : Except RCErr Bool :=
  if c.ref ≠ TRefIdMax ∧ c.off ≠ TRefOffMax then
    if c.orient = 0 ∨ c.orient = 1 then .ok true else .error .assertFail
  else
    .ok false

/-- `Coord::fw()` (ref_coord.h lines 88–92): `assert(valid())`, then
return `orient_ == 1`. -/
def Coord.fw (c : Coord) : Except RCErr Bool :=
  match c.valid with
  | .ok true => .ok (c.orient = 1)
  | .ok false => .error .assertFail
  | .error e => .error e

/-- `Coord::operator<` (ref_coord.h lines 40–49): `assert(valid())` on both
sides, then compare `ref_`, then `off_`, then `orient_`. -/
def Coord.lt (c o : Coord) : Except RCErr Bool :=
  match c.valid, o.valid with
  | .ok true, .ok true =>
    .ok (if c.ref < o.ref then true
         else if o.ref < c.ref then false
         else if c.off < o.off then true
         else if o.off < c.off then false
         else if c.orient < o.orient then true
         else false)
  | _, _ => .error .assertFail

/-- `Coord::within(len, inbegin, inend)` (ref_coord.h lines 111–113):
`off_ >= inbegin && off_ + len <= inend`.  No assertions. -/
def Coord.within (c : Coord) (len inbegin inend : Int) : Bool :=
  decide (c.off ≥ inbegin ∧ c.off + len ≤ inend)

/-- `[a, b) ⊆ [c, d)` as sets of integers; the containment notion the spec
uses to describe `Coord::within`. -/
def intSubset (a b c d : Int) : Prop :=
  ∀ x : Int, a ≤ x ∧ x < b → c ≤ x ∧ x < d

/-- The fields of class `Interval` (ref_coord.h lines 130–215). -/
structure Interval where
  upstream : Coord
  len : Int
deriving DecidableEq

/-- The two-offset constructor `Interval(TRefId, TRefId, TRefOff, TRefOff)`
(ref_coord.h lines 140–146): `assert_eq(id1, id2)`, take the smaller offset
as upstream, build a Watson `Coord` there, length = larger − smaller. -/
def Interval.mk2 (id1 id2 : Nat) (off1 off2 : Int) : Except RCErr Interval :=
  if id1 = id2 then
    .ok ⟨Coord.init id1 (min off1 off2) true, max off1 off2 - min off1 off2⟩
  else
    .error .invalidArgument

/-- `Interval::valid()` (ref_coord.h lines 164–171): if the upstream Coord
is valid, `assert_gt(len_, 0)` and return true; else return false. -/
def Interval.valid (i : Interval) : Except RCErr Bool :=
  match i.upstream.valid with
  | .ok true => if 0 < i.len then .ok true else .error .assertFail
  | .ok false => .ok false
  | .error e => .error e

/-! ## pe.cpp: pair classification (spec-modelled) -/

/-- The implied fragment length of a pair of mate alignments:
`max(off1+len1, off2+len2) − min(off1, off2)` (spec §4.4 step 2). -/
def fragLenOf (off1 : Int) (len1 : Nat) (off2 : Int) (len2 : Nat) : Int :=
  max (off1 + (len1 : Int)) (off2 + (len2 : Int)) - min off1 off2

/-- Modelled from the spec: `PairedEndPolicy::peClassifyPair` is only
declared in `pe.h` (lines 245–252); its definition (in `pe.cpp`) is not
among the available source files.  This definition follows spec §4.4
step by step:
1. orientation check — same strands for FF/RR, opposite for FR/RF, else
   Discordant (an unrecognized policy fails with ConfigurationError, here
   surfaced through `pePolicyMateDir`);
2. fragment-length check against `[minfrag, effective maximum]`, where the
   effective maximum is `max(maxfrag, len1, len2)` when `expandToFit` is
   set and `maxfrag` otherwise, else Discordant;
3. expected-order check via `pePolicyMateDir` applied to mate 1's strand
   (mate 1 is expected left iff the other mate is not required left),
   with actual order `off1 ≤ off2`; on a mismatch, Dovetail if the mates'
   intervals share a position, else Discordant; on a match, Contain if one
   interval is a strict subset of the other, else Overlap if they share a
   position, else Normal. -/
def PairedEndPolicy.peClassifyPair (pe : PairedEndPolicy)
    (off1 : Int) (len1 : Nat) (fw1 : Bool)
    (off2 : Int) (len2 : Nat) (fw2 : Bool) : Except PolicyErr Int :=
  match pePolicyMateDir pe.pol true fw1 with
  | .error e => .error e
  | .ok md =>
    if ¬ (if pe.pol = PE_POLICY_FF ∨ pe.pol = PE_POLICY_RR
          then fw1 = fw2 else ¬ fw1 = fw2) then
      .ok PE_ALS_DISCORD
    else if fragLenOf off1 len1 off2 len2 < (pe.minfrag : Int) ∨
            (if pe.expandToFit
             then max (pe.maxfrag : Int) (max (len1 : Int) (len2 : Int))
             else (pe.maxfrag : Int)) < fragLenOf off1 len1 off2 len2 then
      .ok PE_ALS_DISCORD
    else if ¬ ((md.left = false) ↔ off1 ≤ off2) then
      if max off1 off2 < min (off1 + (len1 : Int)) (off2 + (len2 : Int)) then
        .ok PE_ALS_DOVETAIL
      else
        .ok PE_ALS_DISCORD
    else if (off2 ≤ off1 ∧ off1 + (len1 : Int) ≤ off2 + (len2 : Int) ∧
             ¬ (off2 = off1 ∧ off1 + (len1 : Int) = off2 + (len2 : Int))) ∨
            (off1 ≤ off2 ∧ off2 + (len2 : Int) ≤ off1 + (len1 : Int) ∧
             ¬ (off1 = off2 ∧ off2 + (len2 : Int) = off1 + (len1 : Int))) then
      .ok PE_ALS_CONTAIN
    else if max off1 off2 < min (off1 + (len1 : Int)) (off2 + (len2 : Int)) then
      .ok PE_ALS_OVERLAP
    else
      .ok PE_ALS_NORMAL

/-! ## Claim theorems -/

/-- C1: for each policy in {FF, RR, FR, RF} and every assignment of
`oneLeft`, `oneWat`, `twoWat`, `pePolicyCompat` returns true iff
`pePolicyMateDir` anchored at mate 1 with strand `oneWat` demands the
other mate on side `!oneLeft` and strand `twoWat`. -/
theorem compat_agrees_with_mateDir : ∀ (oneLeft oneWat twoWat : Bool),
    (pePolicyCompat PE_POLICY_FF oneLeft oneWat twoWat = .ok true ↔
      pePolicyMateDir PE_POLICY_FF true oneWat = .ok ⟨!oneLeft, twoWat⟩) ∧
    (pePolicyCompat PE_POLICY_RR oneLeft oneWat twoWat = .ok true ↔
      pePolicyMateDir PE_POLICY_RR true oneWat = .ok ⟨!oneLeft, twoWat⟩) ∧
    (pePolicyCompat PE_POLICY_FR oneLeft oneWat twoWat = .ok true ↔
      pePolicyMateDir PE_POLICY_FR true oneWat = .ok ⟨!oneLeft, twoWat⟩) ∧
    (pePolicyCompat PE_POLICY_RF oneLeft oneWat twoWat = .ok true ↔
      pePolicyMateDir PE_POLICY_RF true oneWat = .ok ⟨!oneLeft, twoWat⟩) := by
  decide

/-- C2: `pePolicyCompat` computes exactly the four-row table of the spec:
FF: strands equal and (mate 1 Watson) == (mate 1 left); RR: strands equal
and (mate 1 Watson) != (mate 1 left); FR: strands differ and == ;
RF: strands differ and != . -/
theorem compat_table : ∀ (oneLeft oneWat twoWat : Bool),
    pePolicyCompat PE_POLICY_FF oneLeft oneWat twoWat =
      .ok ((oneWat == twoWat) && (oneWat == oneLeft)) ∧
    pePolicyCompat PE_POLICY_RR oneLeft oneWat twoWat =
      .ok ((oneWat == twoWat) && (oneWat != oneLeft)) ∧
    pePolicyCompat PE_POLICY_FR oneLeft oneWat twoWat =
      .ok ((oneWat != twoWat) && (oneWat == oneLeft)) ∧
    pePolicyCompat PE_POLICY_RF oneLeft oneWat twoWat =
      .ok ((oneWat != twoWat) && (oneWat != oneLeft)) := by
  decide

/-- C3: `pePolicyMateDir` computes exactly the spec's table:
FF: left = (is1 != fw), mfw = fw; RR: left = (is1 == fw), mfw = fw;
FR: left = !fw, mfw = !fw; RF: left = fw, mfw = !fw. -/
theorem mateDir_table : ∀ (is1 fw : Bool),
    pePolicyMateDir PE_POLICY_FF is1 fw = .ok ⟨is1 != fw, fw⟩ ∧
    pePolicyMateDir PE_POLICY_RR is1 fw = .ok ⟨is1 == fw, fw⟩ ∧
    pePolicyMateDir PE_POLICY_FR is1 fw = .ok ⟨!fw, !fw⟩ ∧
    pePolicyMateDir PE_POLICY_RF is1 fw = .ok ⟨fw, !fw⟩ := by
  decide

/-- C4: for every policy value outside {FF, RR, FR, RF} — in particular the
sentinel −1 installed by `PairedEndPolicy::reset` — both `pePolicyCompat`
and `pePolicyMateDir` fail with a configuration error for every assignment
of their boolean arguments. -/
theorem bad_policy_errors (p : Int)
    (h1 : p ≠ PE_POLICY_FF) (h2 : p ≠ PE_POLICY_RR)
    (h3 : p ≠ PE_POLICY_FR) (h4 : p ≠ PE_POLICY_RF) :
    ∀ (oneLeft oneWat twoWat is1 fw : Bool),
      pePolicyCompat p oneLeft oneWat twoWat = .error .configurationError ∧
      pePolicyMateDir p is1 fw = .error .configurationError := by
  intro oneLeft oneWat twoWat is1 fw
  exact ⟨by simp [pePolicyCompat, h1, h2, h3, h4],
         by simp [pePolicyMateDir, h1, h2, h3, h4]⟩

/-- C4 witness: at the sentinel policy −1 installed by
`PairedEndPolicy::reset`, both functions fail. -/
theorem bad_policy_errors_witness :
    (PairedEndPolicy.reset.pol ≠ PE_POLICY_FF ∧
     PairedEndPolicy.reset.pol ≠ PE_POLICY_RR ∧
     PairedEndPolicy.reset.pol ≠ PE_POLICY_FR ∧
     PairedEndPolicy.reset.pol ≠ PE_POLICY_RF) ∧
    (pePolicyCompat PairedEndPolicy.reset.pol true true true =
       .error .configurationError ∧
     pePolicyMateDir PairedEndPolicy.reset.pol true true =
       .error .configurationError) :=
  ⟨⟨by decide, by decide, by decide, by decide⟩,
   bad_policy_errors PairedEndPolicy.reset.pol
     (by decide) (by decide) (by decide) (by decide) true true true true true⟩

/-- C10: `Coord::valid` is true iff neither field holds its sentinel value
(`2^64 − 1` for the reference id, `2^63 − 1` for the offset), regardless of
how the Coord was produced via `init`; a Coord `init`ialized with either
sentinel reports the same validity as one produced by `invalidate()`,
namely false. -/
theorem coord_valid_iff_nonsentinel : ∀ (rf : Nat) (of : Int) (b : Bool),
    (Coord.init rf of b).valid =
      .ok (decide (rf ≠ TRefIdMax ∧ of ≠ TRefOffMax)) ∧
    (Coord.init TRefIdMax of b).valid = Coord.invalidateC.valid ∧
    (Coord.init rf TRefOffMax b).valid = Coord.invalidateC.valid ∧
    Coord.invalidateC.valid = .ok false := by
  intro rf of b
  refine ⟨?_, ?_, ?_, by decide⟩
  · by_cases h : rf ≠ TRefIdMax ∧ of ≠ TRefOffMax <;>
      cases b <;> simp [Coord.valid, Coord.init, h]
  · cases b <;> simp [Coord.valid, Coord.init, Coord.invalidateC]
  · cases b <;> simp [Coord.valid, Coord.init, Coord.invalidateC]

/-- C5 counterexample: at offset 0 with `len = 0` and window `[1, 2)`,
`Coord::within` returns false although the empty interval `[0, 0)` is a
subset of `[1, 2)` — so `within` is not equivalent to set containment in
the degenerate case `len = 0`. -/
theorem within_zero_len_cex :
    (Coord.init 0 0 true).within 0 1 2 = false ∧ intSubset 0 (0 + 0) 1 2 :=
  ⟨by decide, fun x hx => absurd hx (by omega)⟩

/-- C5 (amended): `within(len, begin, end)` returns exactly the conjunction
`off ≥ begin ∧ off + len ≤ end`; for `len > 0` this is equivalent to
`[off, off+len) ⊆ [begin, end)`, but for `len = 0` it can return false even
though the empty interval is a subset of every window. -/
theorem within_iff_subset (c : Coord) (len inbegin inend : Int)
    (h : 0 < len) :
    c.within len inbegin inend = true ↔
      intSubset c.off (c.off + len) inbegin inend := by
  unfold Coord.within intSubset
  simp only [decide_eq_true_eq]
  constructor
  · intro hw x hx
    omega
  · intro hs
    have h1 := hs c.off ⟨le_refl _, by omega⟩
    have h2 := hs (c.off + len - 1) ⟨by omega, by omega⟩
    omega

/-- C5 witness for the amended theorem, at offset 5, length 2, window
`[4, 10)`. -/
theorem within_iff_subset_witness :
    (0 : Int) < 2 ∧
    ((Coord.init 0 5 true).within 2 4 10 = true ↔
      intSubset (Coord.init 0 5 true).off ((Coord.init 0 5 true).off + 2)
        4 10) :=
  ⟨by decide, within_iff_subset (Coord.init 0 5 true) 2 4 10 (by decide)⟩

/-- C6: the public constructor `Interval(0, 0, 10, 10)` (equal offsets on
the same reference) is accepted and yields an Interval of length 0 whose
upstream Coord is valid; on that Interval, `valid()` violates its own
`assert_gt(len_, 0)` (in an NDEBUG build it would return true with length
0) — contradicting the invariant that a valid Interval has length > 0. -/
theorem interval_zero_len_bug :
    Interval.mk2 0 0 10 10 = .ok ⟨⟨0, 10, 1⟩, 0⟩ ∧
    (Coord.mk 0 10 1).valid = .ok true ∧
    (Interval.mk (Coord.mk 0 10 1) 0).len = 0 ∧
    (Interval.mk (Coord.mk 0 10 1) 0).valid = .error .assertFail := by
  refine ⟨by decide, by decide, rfl, by decide⟩

/-- C7: constructing an Interval from two raw offsets on different
references fails with InvalidArgument (the `assert_eq(id1, id2)` contract
check) for every choice of offsets. -/
theorem interval_diff_refs_fails (id1 id2 : Nat) (off1 off2 : Int)
    (h : id1 ≠ id2) :
    Interval.mk2 id1 id2 off1 off2 = .error .invalidArgument := by
  simp [Interval.mk2, h]

/-- C7 witness: reference ids 0 and 1. -/
theorem interval_diff_refs_fails_witness :
    (0 : Nat) ≠ 1 ∧ Interval.mk2 0 1 5 9 = .error .invalidArgument :=
  ⟨by decide, interval_diff_refs_fails 0 1 5 9 (by decide)⟩

/-- C8: for valid Coords, `operator<` is the lexicographic order on
(reference id, offset, strand), with Crick (`fw = false`) below Watson
(`fw = true`) as the tie-break. -/
theorem coord_lt_lex (a b : Coord)
    (ha : a.valid = .ok true) (hb : b.valid = .ok true) :
    a.lt b = .ok true ↔
      (a.ref < b.ref ∨
       (a.ref = b.ref ∧ a.off < b.off) ∨
       (a.ref = b.ref ∧ a.off = b.off ∧ a.fw = .ok false ∧ b.fw = .ok true)) := by
  have hoa : a.orient = 0 ∨ a.orient = 1 := by
    unfold Coord.valid at ha
    split_ifs at ha with h1 h2
    · exact h2
    · exact absurd ha (by simp)
  have hob : b.orient = 0 ∨ b.orient = 1 := by
    unfold Coord.valid at hb
    split_ifs at hb with h1 h2
    · exact h2
    · exact absurd hb (by simp)
  simp only [Coord.lt, Coord.fw, ha, hb]
  constructor
  · intro hlt
    rcases hoa with h1 | h1 <;> rcases hob with h2 | h2 <;>
      simp only [Except.ok.injEq, h1, h2] at hlt ⊢ <;>
      split_ifs at hlt with g1 g2 g3 g4 g5 <;>
      simp_all <;> omega
  · intro hr
    rcases hoa with h1 | h1 <;> rcases hob with h2 | h2 <;>
      simp only [Except.ok.injEq, h1, h2] at hr ⊢ <;>
      split_ifs with g1 g2 g3 g4 g5 <;>
      simp_all <;> omega

/-- C8 witness: two valid Coords at the same reference and offset, the
first on Crick, the second on Watson. -/
theorem coord_lt_lex_witness :
    ((Coord.init 0 5 false).valid = .ok true ∧
     (Coord.init 0 5 true).valid = .ok true) ∧
    ((Coord.init 0 5 false).lt (Coord.init 0 5 true) = .ok true ↔
      ((Coord.init 0 5 false).ref < (Coord.init 0 5 true).ref ∨
       ((Coord.init 0 5 false).ref = (Coord.init 0 5 true).ref ∧
        (Coord.init 0 5 false).off < (Coord.init 0 5 true).off) ∨
       ((Coord.init 0 5 false).ref = (Coord.init 0 5 true).ref ∧
        (Coord.init 0 5 false).off = (Coord.init 0 5 true).off ∧
        (Coord.init 0 5 false).fw = .ok false ∧
        (Coord.init 0 5 true).fw = .ok true))) :=
  ⟨⟨by decide, by decide⟩,
   coord_lt_lex (Coord.init 0 5 false) (Coord.init 0 5 true)
     (by decide) (by decide)⟩

/-- If the strand pattern matches the policy, the expected order matches the
actual order, and the implied fragment length lies within
`[minfrag, maxfrag]` (with `expandToFit` off), the classifier does not
answer Discordant. -/
lemma classify_bounds_aux (pe : PairedEndPolicy) (off1 : Int) (len1 : Nat)
    (fw1 : Bool) (off2 : Int) (len2 : Nat) (fw2 : Bool) (md : MateDir)
    (hmd : pePolicyMateDir pe.pol true fw1 = .ok md)
    (hstr : if pe.pol = PE_POLICY_FF ∨ pe.pol = PE_POLICY_RR
            then fw1 = fw2 else ¬ fw1 = fw2)
    (hord : md.left = false ↔ off1 ≤ off2)
    (hexp : pe.expandToFit = false)
    (hlo : (pe.minfrag : Int) ≤ fragLenOf off1 len1 off2 len2)
    (hhi : fragLenOf off1 len1 off2 len2 ≤ (pe.maxfrag : Int)) :
    pe.peClassifyPair off1 len1 fw1 off2 len2 fw2 ≠ .ok PE_ALS_DISCORD := by
  unfold PairedEndPolicy.peClassifyPair
  simp only [hmd, hexp, Bool.false_eq_true, if_false]
  rw [if_neg (not_not_intro hstr)]
  rw [if_neg (by push_neg; exact ⟨hlo, hhi⟩)]
  rw [if_neg (not_not_intro hord)]
  split_ifs <;> decide

/-- If the strand pattern matches the policy but the implied fragment
length falls outside `[minfrag, maxfrag]` (with `expandToFit` off), the
classifier answers Discordant. -/
lemma classify_discord_aux (pe : PairedEndPolicy) (off1 : Int) (len1 : Nat)
    (fw1 : Bool) (off2 : Int) (len2 : Nat) (fw2 : Bool) (md : MateDir)
    (hmd : pePolicyMateDir pe.pol true fw1 = .ok md)
    (hstr : if pe.pol = PE_POLICY_FF ∨ pe.pol = PE_POLICY_RR
            then fw1 = fw2 else ¬ fw1 = fw2)
    (hexp : pe.expandToFit = false)
    (hout : fragLenOf off1 len1 off2 len2 < (pe.minfrag : Int) ∨
            (pe.maxfrag : Int) < fragLenOf off1 len1 off2 len2) :
    pe.peClassifyPair off1 len1 fw1 off2 len2 fw2 = .ok PE_ALS_DISCORD := by
  unfold PairedEndPolicy.peClassifyPair
  simp only [hmd, hexp, Bool.false_eq_true, if_false]
  rw [if_neg (not_not_intro hstr)]
  rw [if_pos hout]

/-- From compatibility of the pair with the policy, extract the mate
direction record of the anchor together with the strand-pattern and
order-agreement facts the classifier tests. -/
lemma compat_destruct (pe : PairedEndPolicy) (off1 off2 : Int)
    (fw1 fw2 : Bool)
    (hcompat : pePolicyCompat pe.pol (decide (off1 ≤ off2)) fw1 fw2 =
      .ok true) :
    ∃ md : MateDir, pePolicyMateDir pe.pol true fw1 = .ok md ∧
      (if pe.pol = PE_POLICY_FF ∨ pe.pol = PE_POLICY_RR
       then fw1 = fw2 else ¬ fw1 = fw2) ∧
      (md.left = false ↔ off1 ≤ off2) := by
  unfold pePolicyCompat at hcompat
  split_ifs at hcompat with p1 p2 p3 p4
  · refine ⟨⟨true != fw1, fw1⟩, by rw [p1]; cases fw1 <;> rfl, ?_, ?_⟩
    · rw [if_pos (Or.inl p1)]
      cases fw1 <;> cases fw2 <;> simp_all
    · by_cases h : off1 ≤ off2 <;> cases fw1 <;> simp_all
  · refine ⟨⟨true == fw1, fw1⟩, by rw [p2]; cases fw1 <;> rfl, ?_, ?_⟩
    · rw [if_pos (Or.inr p2)]
      cases fw1 <;> cases fw2 <;> simp_all
    · by_cases h : off1 ≤ off2 <;> cases fw1 <;> simp_all
  · refine ⟨⟨!fw1, !fw1⟩, by rw [p3]; cases fw1 <;> rfl, ?_, ?_⟩
    · rw [if_neg (by push_neg; exact ⟨p1, p2⟩)]
      cases fw1 <;> cases fw2 <;> simp_all
    · by_cases h : off1 ≤ off2 <;> cases fw1 <;> simp_all
  · refine ⟨⟨fw1, !fw1⟩, by rw [p4]; cases fw1 <;> rfl, ?_, ?_⟩
    · rw [if_neg (by push_neg; exact ⟨p1, p2⟩)]
      cases fw1 <;> cases fw2 <;> simp_all
    · by_cases h : off1 ≤ off2 <;> cases fw1 <;> simp_all

/-- C9: with `expandToFit` off and `minfrag ≤ maxfrag`, for every pair
whose strands and left/right order are compatible with the policy,
`peClassifyPair` does not answer Discordant when the implied fragment
length equals `minfrag` or `maxfrag` (inclusive bounds), and answers
Discordant when it equals `minfrag − 1` or `maxfrag + 1`. -/
theorem classify_fragment_boundaries (pe : PairedEndPolicy)
    (off1 : Int) (len1 : Nat) (fw1 : Bool)
    (off2 : Int) (len2 : Nat) (fw2 : Bool)
    (hexp : pe.expandToFit = false)
    (hmm : pe.minfrag ≤ pe.maxfrag)
    (hcompat : pePolicyCompat pe.pol (decide (off1 ≤ off2)) fw1 fw2 =
      .ok true) :
    ((fragLenOf off1 len1 off2 len2 = (pe.minfrag : Int) ∨
      fragLenOf off1 len1 off2 len2 = (pe.maxfrag : Int)) →
      pe.peClassifyPair off1 len1 fw1 off2 len2 fw2 ≠ .ok PE_ALS_DISCORD) ∧
    ((fragLenOf off1 len1 off2 len2 = (pe.minfrag : Int) - 1 ∨
      fragLenOf off1 len1 off2 len2 = (pe.maxfrag : Int) + 1) →
      pe.peClassifyPair off1 len1 fw1 off2 len2 fw2 = .ok PE_ALS_DISCORD) := by
  obtain ⟨md, hmd, hstr, hord⟩ := compat_destruct pe off1 off2 fw1 fw2 hcompat
  constructor
  · intro hfr
    rcases hfr with h | h
    · exact classify_bounds_aux pe off1 len1 fw1 off2 len2 fw2 md hmd hstr
        hord hexp (by omega) (by omega)
    · exact classify_bounds_aux pe off1 len1 fw1 off2 len2 fw2 md hmd hstr
        hord hexp (by omega) (by omega)
  · intro hfr
    rcases hfr with h | h
    · exact classify_discord_aux pe off1 len1 fw1 off2 len2 fw2 md hmd hstr
        hexp (by omega)
    · exact classify_discord_aux pe off1 len1 fw1 off2 len2 fw2 md hmd hstr
        hexp (by omega)

/-- An FR-like configuration used only to witness the boundary theorem:
policy FF, maxfrag 10, minfrag 2, all flags off. -/
def peFF : PairedEndPolicy :=
  ⟨PE_POLICY_FF, 10, 2, false, false, false, false, false⟩

/-- C9 witness: a concrete FF-compatible pair under `peFF`. -/
theorem classify_fragment_boundaries_witness :
    (peFF.expandToFit = false ∧ peFF.minfrag ≤ peFF.maxfrag ∧
     pePolicyCompat peFF.pol (decide ((0 : Int) ≤ 4)) true true = .ok true) ∧
    (((fragLenOf 0 2 4 2 = (peFF.minfrag : Int) ∨
       fragLenOf 0 2 4 2 = (peFF.maxfrag : Int)) →
       peFF.peClassifyPair 0 2 true 4 2 true ≠ .ok PE_ALS_DISCORD) ∧
     ((fragLenOf 0 2 4 2 = (peFF.minfrag : Int) - 1 ∨
       fragLenOf 0 2 4 2 = (peFF.maxfrag : Int) + 1) →
       peFF.peClassifyPair 0 2 true 4 2 true = .ok PE_ALS_DISCORD)) :=
  ⟨⟨rfl, by decide, by decide⟩,
   classify_fragment_boundaries peFF 0 2 true 4 2 true rfl (by decide)
     (by decide)⟩

end B2
